import Mathlib

/-!
Verification of the qri `update` package (the scheduling/runner service) and
its flatbuffer storage schemas, as a shallow embedding in Lean 4.

The embedding follows the Go source of the `update` package:
  - `datasetSaveCmd`, `shellScriptCmd`, `JobToCmd` build external commands
    from jobs;
  - `Factory` returns the run function that installs a stderr capture buffer
    for dataset jobs and classifies run errors via `processJobError`;
  - `DatasetToJob` and `ShellScriptToJob` construct jobs, delegating
    recurrence parsing to the external iso8601 library (modelled here as a
    function parameter) and validation to the external cron package (also a
    parameter);
  - `Start` probes liveness before touching any store.
The cron flatbuffer IDL (`cron.fbs`) and the repo ref flatbuffer IDL are
embedded as explicit field-list descriptions.
-/

namespace QriUpdate

/-- Job types. In the Go cron package `JobType` is a string type; the
flatbuffer enum names the two supported kinds `dataset` and `shell`. -/
def JTDataset : String := "dataset"

def JTShellScript : String := "shell"

/-- A parsed ISO-8601 repeating interval. The parser lives in the external
`iso8601` library, so the interval is opaque here: we keep only the raw
expression it was parsed from. -/
structure RepeatingInterval where
  raw : String
deriving DecidableEq, Repr

/-- Options for dataset jobs, mirroring `cron.DatasetOptions` field-for-field
(per the cron flatbuffer IDL and the fields used in `datasetSaveCmd`). -/
structure DatasetOptions where
  title : String := ""
  message : String := ""
  bodyPath : String := ""
  filePaths : List String := []
  «recall» : String := ""
  publish : Bool := false
  strict : Bool := false
  force : Bool := false
  convertFormatToPrev : Bool := false
  shouldRender : Bool := false
  config : List (String × String) := []
  secrets : List (String × String) := []
deriving DecidableEq, Repr

/-- Options for shell script jobs: the flatbuffer table has no fields. -/
structure ShellScriptOptions where
deriving DecidableEq, Repr

/-- The type-tagged `Options` payload of a job. In Go this is an interface
value which may be nil, hold a `*cron.DatasetOptions`, or hold a
`*cron.ShellScriptOptions`. -/
inductive JobOptions where
  | noOptions : JobOptions
  | dataset : DatasetOptions → JobOptions
  | shellScript : ShellScriptOptions → JobOptions
deriving DecidableEq, Repr

/-- A cron job, mirroring `cron.Job` (fields per the cron flatbuffer IDL).
Timestamps are kept as opaque strings. -/
structure Job where
  name : String := ""
  «alias» : String := ""
  type : String := ""
  periodicity : RepeatingInterval := ⟨""⟩
  prevRunStart : String := ""
  runNumber : Int := 0
  runStart : String := ""
  runStop : String := ""
  runError : String := ""
  logFilePath : String := ""
  options : JobOptions := .noOptions
  repoPath : String := ""
deriving DecidableEq, Repr

/-- An external command: executable path, argument vector, and optional
environment override (`none` = inherit the calling process's environment,
matching `exec.Cmd` semantics when `Env` is nil), with its three standard
streams wired to the caller's streams. -/
structure Cmd where
  path : String
  args : List String
  env : Option (List (String × String))
  stdinWired : Bool
  stdoutWired : Bool
  stderrWired : Bool
deriving DecidableEq, Repr

/-- The boolean-flag map literal of `datasetSaveCmd`, as its list of entries
(flag name paired with the backing field value). -/
def boolFlagEntries (o : DatasetOptions) : List (String × Bool) :=
  [("--publish", o.publish), ("--strict", o.strict), ("--force", o.force),
   ("--keep-format", o.convertFormatToPrev), ("--no-render", !o.shouldRender)]

/-- The argument vector built by `datasetSaveCmd`. Go iterates the
`boolFlags` map in an unspecified (runtime-randomized) order, so the
iteration order is a parameter: `boolOrder` is the sequence of map entries
the loop visits, constrained in theorems to be a permutation of
`boolFlagEntries`. -/
def datasetSaveCmdArgs (boolOrder : List (String × Bool)) (job : Job) :
    List String :=
  let args := ["save", job.name]
  let args := if job.repoPath ≠ "" then args ++ ["--repo=" ++ job.repoPath] else args
  match job.options with
  | .dataset o =>
    let args := if o.title ≠ "" then args ++ ["--title=" ++ o.title] else args
    let args := if o.message ≠ "" then args ++ ["--message=" ++ o.message] else args
    let args := if o.«recall» ≠ "" then args ++ ["--recall=" ++ o.«recall»] else args
    let args := if o.bodyPath ≠ "" then args ++ ["--body=" ++ o.bodyPath] else args
    let args := args ++ o.filePaths.map (fun p => "--file=" ++ p)
    args ++ (boolOrder.filter (fun e => e.2)).map (fun e => e.1)
  | _ => args

/-- `datasetSaveCmd`: a "qri" invocation with the computed argument vector,
streams wired, environment inherited. -/
def datasetSaveCmd (boolOrder : List (String × Bool)) (job : Job) : Cmd :=
  { path := "qri", args := datasetSaveCmdArgs boolOrder job, env := none,
    stdinWired := true, stdoutWired := true, stderrWired := true }

/-- `shellScriptCmd`: invokes the job's name as an executable with no
arguments, streams wired, environment inherited. -/
def shellScriptCmd (job : Job) : Cmd :=
  { path := job.name, args := [], env := none,
    stdinWired := true, stdoutWired := true, stderrWired := true }

/-- `JobToCmd` dispatches on the job type; unrecognized types produce no
command (`nil` in Go). -/
def JobToCmd (boolOrder : List (String × Bool)) (job : Job) : Option Cmd :=
  if job.type = JTDataset then some (datasetSaveCmd boolOrder job)
  else if job.type = JTShellScript then some (shellScriptCmd job)
  else none

/-- Whether `sub` occurs as a contiguous sublist of the second argument —
the semantics of Go's `strings.Contains` over the rune sequence. -/
def containsSubList (sub : List Char) : List Char → Bool
  | [] => sub.isEmpty
  | c :: rest => sub.isPrefixOf (c :: rest) || containsSubList sub rest

/-- `strings.Contains s sub`: substring containment on strings. -/
def containsPhrase (s sub : String) : Bool :=
  containsSubList sub.data s.data

/-- `processJobError`: classifies the execution error. A `none` error means
the process exited cleanly. `errOut` is the contents of the stderr capture
buffer when one was installed (`none` = nil buffer). -/
def processJobError (job : Job) (errOut : Option String)
    (err : Option String) : Option String :=
  match err with
  | none => none
  | some e =>
    if job.type = JTDataset then
      match errOut with
      | some txt =>
        if containsPhrase txt "no changes to save" then
          some "no changes to save"
        else some e
      | none => some e
    else some e

/-- Outcome of one invocation of the run function returned by `Factory`:
the returned error (`none` = success), whether a child process was spawned
(`cmd.Run()` was reached), and whether a stderr capture buffer was
installed. -/
structure RunOutcome where
  result : Option String
  spawned : Bool
  bufInstalled : Bool
deriving DecidableEq, Repr

/-- The run function returned by `Factory`. The child process's behaviour is
external, so it is a parameter: `execErr` is the error produced by
`cmd.Run()` and `stderrText` is the text the child wrote to stderr (which
the installed tee buffer captures). A capture buffer is installed exactly
for dataset-type jobs; if `JobToCmd` produces no command the function fails
without spawning. -/
def factoryRun (boolOrder : List (String × Bool)) (job : Job)
    (execErr : Option String) (stderrText : String) : RunOutcome :=
  let errBuf : Option String :=
    if job.type = JTDataset then some stderrText else none
  match JobToCmd boolOrder job with
  | none =>
    { result := some ("unrecognized update type: " ++ job.type),
      spawned := false, bufInstalled := errBuf.isSome }
  | some _ =>
    { result := processJobError job errBuf execErr,
      spawned := true, bufInstalled := errBuf.isSome }

/-- A dataset commit, keeping only the field `DatasetToJob` reads. -/
structure Commit where
  timestamp : String
deriving DecidableEq, Repr

/-- Dataset metadata, keeping only the field `DatasetToJob` reads. -/
structure Meta where
  accrualPeriodicity : String := ""
deriving DecidableEq, Repr

/-- A dataset, keeping only the fields `DatasetToJob` reads. `meta` is a
possibly-nil pointer in Go; `commit` is dereferenced unconditionally, so it
is modelled as a plain field. -/
structure Dataset where
  peername : String
  name : String
  meta : Option Meta := none
  commit : Commit
deriving DecidableEq, Repr

/-- The periodicity-fallback step at the head of `DatasetToJob`: an empty
periodicity argument is replaced by the dataset's meta accrualPeriodicity
when that is present and non-empty. -/
def resolvePeriodicity (ds : Dataset) (periodicity : String) : String :=
  if periodicity = "" then
    match ds.meta with
    | some m => if m.accrualPeriodicity ≠ "" then m.accrualPeriodicity else periodicity
    | none => periodicity
  else periodicity

/-- The error message `DatasetToJob` returns when no periodicity is
available. -/
def errNoPeriodicity : String :=
  "scheduling dataset updates requires a meta component with accrualPeriodicity set"

/-- `DatasetToJob` converts a dataset to a cron job. Recurrence parsing is
done by the external iso8601 library and job validation by the external
cron package, so both are parameters. Mirrors the Go multi-value return
`(job, err)`: on an early error the job is nil (`none`); after construction
the job is returned together with the result of `job.Validate()`. -/
def DatasetToJob (parse : String → Except String RepeatingInterval)
    (validate : Job → Option String) (ds : Dataset) (periodicity : String)
    (opts : Option DatasetOptions) : Option Job × Option String :=
  let periodicity := resolvePeriodicity ds periodicity
  if periodicity = "" then
    (none, some errNoPeriodicity)
  else
    match parse periodicity with
    | .error e => (none, some e)
    | .ok p =>
      let job : Job :=
        { name := ds.peername ++ "/" ++ ds.name,
          periodicity := p,
          type := JTDataset,
          prevRunStart := ds.commit.timestamp,
          options := match opts with
            | some o => .dataset o
            | none => .noOptions }
      (some job, validate job)

/-- `ShellScriptToJob` turns a shell script path into a cron job; the
recurrence parser and validator are external parameters as in
`DatasetToJob`. -/
def ShellScriptToJob (parse : String → Except String RepeatingInterval)
    (validate : Job → Option String) (path : String) (periodicity : String)
    (opts : Option ShellScriptOptions) : Option Job × Option String :=
  match parse periodicity with
  | .error e => (none, some e)
  | .ok p =>
    let job : Job :=
      { name := path,
        periodicity := p,
        type := JTShellScript,
        options := match opts with
          | some o => .shellScript o
          | none => .noOptions }
    (some job, validate job)

/-- Which store backend a configuration selects. -/
inductive StoreKind where
  | fs
  | mem
deriving DecidableEq, Repr

/-- The observable side-effecting steps of `Start`/`start`, in program
order: creating the update directory, creating the job and log stores,
constructing the cron service, serving HTTP, entering the scheduler loop,
and installing the daemon. -/
inductive StartAction where
  | mkdirUpdatePath
  | createJobStore (k : StoreKind)
  | createLogStore (k : StoreKind)
  | newCron
  | serveHTTP
  | startSchedulerLoop
  | daemonInstall
deriving DecidableEq, Repr

/-- The `start` helper: creates the update path, selects the store backend
from the configured cron type (an unknown type is an error after only the
directory creation), builds the service, serves HTTP in the background and
runs the scheduler loop. The result abstracts the loop's eventual outcome;
the action trace records what was executed and in which order. -/
def start (cfgType : String) : Except String Unit × List StartAction :=
  let acts := [StartAction.mkdirUpdatePath]
  if cfgType = "fs" then
    (.ok (), acts ++ [.createJobStore .fs, .createLogStore .fs, .newCron,
      .serveHTTP, .startSchedulerLoop])
  else if cfgType = "mem" then
    (.ok (), acts ++ [.createJobStore .mem, .createLogStore .mem, .newCron,
      .serveHTTP, .startSchedulerLoop])
  else
    (.error ("unknown cron type: " ++ cfgType), acts)

/-- `Start`: probes the configured address first (`pingOk` is the outcome of
the external liveness probe `HTTPClient.Ping`); when a prior instance
answers, it fails immediately with the already-running error and performs
no action at all. Otherwise it either installs the daemon or runs
`start`. -/
def Start (pingOk : Bool) (daemonize : Bool) (cfgType : String) :
    Except String Unit × List StartAction :=
  if pingOk then (.error "service already running", [])
  else if daemonize then (.ok (), [.daemonInstall])
  else start cfgType

end QriUpdate

namespace QriFbs

/-- Field types appearing in the qri flatbuffer IDLs. -/
inductive FbsTy where
  | str
  | boolean
  | long
  | strList
  | jobTypeEnum
  | optionsUnion
  | stringMapValList
  | jobList
  | datasetRefList
deriving DecidableEq, Repr

/-- The `JobType` enumeration of the cron IDL, name and value pairs
(`dataset` takes the implicit successor value 1). -/
def jobTypeEnumValues : List (String × Nat) :=
  [("unknown", 0), ("dataset", 1), ("shell", 2)]

/-- The members of the `Options` union of the cron IDL. -/
def optionsUnionMembers : List String :=
  ["DatasetOptions", "ShellScriptOptions"]

/-- The fields of the `DatasetOptions` table of the cron IDL, in
declaration order. -/
def datasetOptionsTableFields : List (String × FbsTy) :=
  [("title", .str), ("message", .str), ("bodyPath", .str),
   ("filePaths", .strList), ("recall", .str),
   ("publish", .boolean), ("strict", .boolean), ("force", .boolean),
   ("convertFormatToPrev", .boolean), ("shouldRender", .boolean),
   ("config", .stringMapValList), ("secrets", .stringMapValList)]

/-- The fields of the `ShellScriptOptions` table of the cron IDL: none. -/
def shellScriptOptionsTableFields : List (String × FbsTy) := []

/-- The fields of the `Job` table of the cron IDL, in declaration order. -/
def jobTableFields : List (String × FbsTy) :=
  [("name", .str), ("alias", .str), ("type", .jobTypeEnum),
   ("periodicity", .str), ("prevRunStart", .str),
   ("runNumber", .long), ("runStart", .str), ("runStop", .str),
   ("runError", .str), ("logFilePath", .str),
   ("options", .optionsUnion), ("repoPath", .str)]

/-- The fields of the root `Jobs` table of the cron IDL: a single ordered
list of Job records. -/
def jobsRootTableFields : List (String × FbsTy) := [("list", .jobList)]

/-- The file identifier declared by the cron IDL. -/
def cronFileIdentifier : String := "QFBF"

/-- The file identifier declared by the repo refs IDL. -/
def repoFileIdentifier : String := "QFBF"

/-- The byte offset at which a flatbuffer file identifier is stored: per
the IDL's own comment, "setting file_identifier adds a magic number to
bytes 4-7" (the first four bytes hold the root offset). -/
def fileIdentifierByteOffset : Nat := 4

/-- Modelled from the spec: the spec and the claim state that a qri
flatbuffer file "begins with" the 4-byte magic identifier, i.e. the magic
occupies bytes 0-3. -/
def specClaimedMagicByteOffset : Nat := 0

/-- Modelled from the spec: the Job record field list as §6 of the spec
enumerates it, in its order — name, alias, type enumeration, periodicity
string, previous-run-start string, 64-bit run number, run start/stop/error
strings, log file path, type-tagged options union, repo path. -/
def specJobRecordFields : List (String × FbsTy) :=
  [("name", .str), ("alias", .str), ("type", .jobTypeEnum),
   ("periodicity", .str), ("prevRunStart", .str),
   ("runNumber", .long), ("runStart", .str), ("runStop", .str),
   ("runError", .str), ("logFilePath", .str),
   ("options", .optionsUnion), ("repoPath", .str)]

/-- Modelled from the spec: the Dataset options field list as the spec and
claim enumerate it — title, message, bodyPath, filePaths list, recall,
exactly five booleans (publish, strict, force, convert-format,
suppress-render per §3), and config and secret key/value pair lists. -/
def specDatasetOptionsFields : List (String × FbsTy) :=
  [("title", .str), ("message", .str), ("bodyPath", .str),
   ("filePaths", .strList), ("recall", .str),
   ("publish", .boolean), ("strict", .boolean), ("force", .boolean),
   ("convertFormatToPrev", .boolean), ("shouldRender", .boolean),
   ("config", .stringMapValList), ("secrets", .stringMapValList)]

/-- Modelled from the spec: the type enumeration as the spec states it,
unknown=0, dataset=1, shell=2. -/
def specJobTypeEnumValues : List (String × Nat) :=
  [("unknown", 0), ("dataset", 1), ("shell", 2)]

end QriFbs

namespace QriUpdate

/-- Appending under a conditional: the incremental `args = append(args, x)`
pattern of the Go code rewrites to appending a conditional segment. -/
theorem ite_append_eq {α : Type} (c : Prop) [Decidable c] (a l : List α) :
    (if c then a ++ l else a) = a ++ (if c then l else []) := by
  split <;> simp

/-- C1: for every Dataset-type job carrying DatasetOptions, under any map
iteration order of the boolean-flag map, the built argument vector is
exactly "save", the job name, `--repo=` when RepoPath is non-empty, one
`--flag=value` per non-empty string option (title, message, recall, body),
one `--file=` per FilePaths element, and then the bare boolean flags whose
backing value is true and nothing else; among the boolean flags,
`--publish` appears if and only if Publish is true. -/
theorem dataset_save_args_minimal (boolOrder : List (String × Bool))
    (job : Job) (o : DatasetOptions) (hopts : job.options = .dataset o)
    (hperm : boolOrder.Perm (boolFlagEntries o)) :
    datasetSaveCmdArgs boolOrder job =
      ["save", job.name]
      ++ (if job.repoPath ≠ "" then ["--repo=" ++ job.repoPath] else [])
      ++ (if o.title ≠ "" then ["--title=" ++ o.title] else [])
      ++ (if o.message ≠ "" then ["--message=" ++ o.message] else [])
      ++ (if o.«recall» ≠ "" then ["--recall=" ++ o.«recall»] else [])
      ++ (if o.bodyPath ≠ "" then ["--body=" ++ o.bodyPath] else [])
      ++ o.filePaths.map (fun p => "--file=" ++ p)
      ++ (boolOrder.filter (fun e => e.2)).map (fun e => e.1)
    ∧ ((boolOrder.filter (fun e => e.2)).map (fun e => e.1)).Perm
        (((boolFlagEntries o).filter (fun e => e.2)).map (fun e => e.1))
    ∧ ("--publish" ∈ (boolOrder.filter (fun e => e.2)).map (fun e => e.1)
        ↔ o.publish = true) := by
  have hargs : datasetSaveCmdArgs boolOrder job =
      ["save", job.name]
      ++ (if job.repoPath ≠ "" then ["--repo=" ++ job.repoPath] else [])
      ++ (if o.title ≠ "" then ["--title=" ++ o.title] else [])
      ++ (if o.message ≠ "" then ["--message=" ++ o.message] else [])
      ++ (if o.«recall» ≠ "" then ["--recall=" ++ o.«recall»] else [])
      ++ (if o.bodyPath ≠ "" then ["--body=" ++ o.bodyPath] else [])
      ++ o.filePaths.map (fun p => "--file=" ++ p)
      ++ (boolOrder.filter (fun e => e.2)).map (fun e => e.1) := by
    simp only [datasetSaveCmdArgs, hopts]
    simp only [ite_append_eq]
  have hflagperm :
      ((boolOrder.filter (fun e => e.2)).map (fun e => e.1)).Perm
        (((boolFlagEntries o).filter (fun e => e.2)).map (fun e => e.1)) :=
    (hperm.filter _).map _
  refine ⟨hargs, hflagperm, ?_⟩
  rw [hflagperm.mem_iff]
  rcases o with ⟨t, m, b, fp, r, pub, st, fo, cf, sr, cfg, sec⟩
  cases pub <;> cases st <;> cases fo <;> cases cf <;> cases sr <;>
    simp [boolFlagEntries]

/-- C1 witness: a concrete dataset job evaluated through the theorem. -/
theorem dataset_save_args_minimal_witness :
    datasetSaveCmdArgs
      [("--publish", true), ("--strict", false), ("--force", false),
       ("--keep-format", false), ("--no-render", true)]
      { name := "b5/ds", type := JTDataset, repoPath := "/qri",
        options := .dataset { title := "t", publish := true } } =
      ["save", "b5/ds", "--repo=/qri", "--title=t", "--publish",
       "--no-render"] := by
  have h := dataset_save_args_minimal
    [("--publish", true), ("--strict", false), ("--force", false),
     ("--keep-format", false), ("--no-render", true)]
    { name := "b5/ds", type := JTDataset, repoPath := "/qri",
      options := .dataset { title := "t", publish := true } }
    { title := "t", publish := true } rfl (by decide)
  exact h.1.trans (by decide)

/-- C9: a Dataset-type job whose Options does not hold DatasetOptions (nil
or another options type) still yields a command: "save", the name, and
`--repo=` when RepoPath is non-empty, with no option flags at all. -/
theorem dataset_save_args_ignores_foreign_options
    (boolOrder : List (String × Bool)) (job : Job)
    (h : ∀ o : DatasetOptions, job.options ≠ .dataset o) :
    datasetSaveCmdArgs boolOrder job =
      ["save", job.name]
      ++ (if job.repoPath ≠ "" then ["--repo=" ++ job.repoPath] else []) := by
  cases hm : job.options with
  | noOptions => simp only [datasetSaveCmdArgs, hm, ite_append_eq]
  | dataset o => exact absurd hm (h o)
  | shellScript s => simp only [datasetSaveCmdArgs, hm, ite_append_eq]

/-- C9 witness: a dataset job with nil options evaluated through the
theorem. -/
theorem dataset_save_args_ignores_foreign_options_witness :
    datasetSaveCmdArgs []
      { name := "b5/ds", type := JTDataset, repoPath := "/qri",
        options := .noOptions } =
      ["save", "b5/ds"] ++ ["--repo=/qri"] :=
  dataset_save_args_ignores_foreign_options []
    { name := "b5/ds", type := JTDataset, repoPath := "/qri",
      options := .noOptions }
    (fun _ h => JobOptions.noConfusion h)

/-- C3 (code bug): the boolean flags are emitted by iterating a Go map,
whose iteration order is unspecified; two orders that are both legitimate
iteration orders of the same `boolFlags` map produce different argument
vectors for the same job, so construction is not deterministic
element-for-element. -/
theorem dataset_save_args_order_unstable :
    ([("--publish", true), ("--strict", true), ("--force", false),
      ("--keep-format", false), ("--no-render", true)].Perm
        (boolFlagEntries { publish := true, strict := true }))
    ∧ ([("--strict", true), ("--publish", true), ("--force", false),
        ("--keep-format", false), ("--no-render", true)].Perm
          (boolFlagEntries { publish := true, strict := true }))
    ∧ datasetSaveCmdArgs
        [("--publish", true), ("--strict", true), ("--force", false),
         ("--keep-format", false), ("--no-render", true)]
        { name := "a/b", type := JTDataset,
          options := .dataset { publish := true, strict := true } } ≠
      datasetSaveCmdArgs
        [("--strict", true), ("--publish", true), ("--force", false),
         ("--keep-format", false), ("--no-render", true)]
        { name := "a/b", type := JTDataset,
          options := .dataset { publish := true, strict := true } } := by
  refine ⟨by decide, by decide, by decide⟩

/-- C2: for a Dataset-type job whose execution fails, a captured stderr
containing "no changes to save" makes the run function report the benign
no-changes condition; any other failure is returned unchanged; and the
stderr capture buffer is installed exactly for Dataset-type jobs. -/
theorem factory_classifies_no_changes :
    (∀ (boolOrder : List (String × Bool)) (job : Job) (e stderrText : String),
       job.type = JTDataset →
       containsPhrase stderrText "no changes to save" = true →
       (factoryRun boolOrder job (some e) stderrText).result =
         some "no changes to save")
    ∧ (∀ (boolOrder : List (String × Bool)) (job : Job) (e stderrText : String),
        job.type = JTDataset →
        containsPhrase stderrText "no changes to save" = false →
        (factoryRun boolOrder job (some e) stderrText).result = some e)
    ∧ (∀ (boolOrder : List (String × Bool)) (job : Job)
        (execErr : Option String) (stderrText : String),
        (factoryRun boolOrder job execErr stderrText).bufInstalled = true ↔
          job.type = JTDataset) := by
  refine ⟨?_, ?_, ?_⟩
  · intro boolOrder job e stderrText ht hc
    simp [factoryRun, JobToCmd, processJobError, ht, hc]
  · intro boolOrder job e stderrText ht hc
    simp [factoryRun, JobToCmd, processJobError, ht, hc]
  · intro boolOrder job execErr stderrText
    by_cases ht : job.type = JTDataset
    · simp [factoryRun, JobToCmd, ht]
    · by_cases hs : job.type = JTShellScript <;>
        simp [factoryRun, JobToCmd, ht, hs,
          show JTShellScript ≠ JTDataset by decide]

/-- C2 witness: concrete dataset runs evaluated through the theorem. -/
theorem factory_classifies_no_changes_witness :
    (factoryRun [] { name := "b5/ds", type := JTDataset }
        (some "exit status 1") "error: no changes to save").result =
      some "no changes to save"
    ∧ (factoryRun [] { name := "b5/ds", type := JTDataset }
        (some "exit status 1") "connection refused").result =
      some "exit status 1"
    ∧ ((factoryRun [] { name := "b5/ds", type := JTDataset }
        (some "exit status 1") "x").bufInstalled = true ↔
          ({ name := "b5/ds", type := JTDataset } : Job).type = JTDataset) :=
  ⟨factory_classifies_no_changes.1 [] { name := "b5/ds", type := JTDataset }
      "exit status 1" "error: no changes to save" rfl (by decide),
   factory_classifies_no_changes.2.1 [] { name := "b5/ds", type := JTDataset }
      "exit status 1" "connection refused" rfl (by decide),
   factory_classifies_no_changes.2.2 [] { name := "b5/ds", type := JTDataset }
      (some "exit status 1") "x"⟩

/-- C6: a job whose type is neither Dataset nor ShellScript yields no
command from JobToCmd, and the run function returned by Factory fails with
the unrecognized-type error without spawning a child process. -/
theorem unsupported_job_type_rejected (boolOrder : List (String × Bool))
    (job : Job) (execErr : Option String) (stderrText : String)
    (h1 : job.type ≠ JTDataset) (h2 : job.type ≠ JTShellScript) :
    JobToCmd boolOrder job = none
    ∧ factoryRun boolOrder job execErr stderrText =
      { result := some ("unrecognized update type: " ++ job.type),
        spawned := false, bufInstalled := false } := by
  constructor
  · simp [JobToCmd, h1, h2]
  · simp [factoryRun, JobToCmd, h1, h2]

/-- C6 witness: a job with an unrecognized type evaluated through the
theorem. -/
theorem unsupported_job_type_rejected_witness :
    JobToCmd [] { name := "x", type := "bogus" } = none
    ∧ factoryRun [] { name := "x", type := "bogus" } none "" =
      { result := some ("unrecognized update type: " ++
          ({ name := "x", type := "bogus" } : Job).type),
        spawned := false, bufInstalled := false } :=
  unsupported_job_type_rejected [] { name := "x", type := "bogus" } none ""
    (by decide) (by decide)

/-- C7: a ShellScript-type job is built into a command that invokes the
job's Name as the executable path, with an empty argument list and no
environment override (the child inherits the caller's environment). -/
theorem shell_script_cmd_minimal (job : Job) :
    (shellScriptCmd job).path = job.name
    ∧ (shellScriptCmd job).args = []
    ∧ (shellScriptCmd job).env = none
    ∧ JobToCmd [] { job with type := JTShellScript } =
        some (shellScriptCmd { job with type := JTShellScript }) :=
  ⟨rfl, rfl, rfl, rfl⟩

/-- C4: construction rejects empty or unparseable recurrence expressions:
DatasetToJob errors with no job when no periodicity is available after the
meta fallback, or when the expression fails to parse; ShellScriptToJob
errors with no job when its expression fails to parse. -/
theorem invalid_periodicity_rejected :
    (∀ (parse : String → Except String RepeatingInterval)
       (validate : Job → Option String) (ds : Dataset) (periodicity : String)
       (opts : Option DatasetOptions),
       resolvePeriodicity ds periodicity = "" →
       DatasetToJob parse validate ds periodicity opts =
         (none, some errNoPeriodicity))
    ∧ (∀ (parse : String → Except String RepeatingInterval)
        (validate : Job → Option String) (ds : Dataset) (periodicity : String)
        (opts : Option DatasetOptions) (e : String),
        resolvePeriodicity ds periodicity ≠ "" →
        parse (resolvePeriodicity ds periodicity) = .error e →
        DatasetToJob parse validate ds periodicity opts = (none, some e))
    ∧ (∀ (parse : String → Except String RepeatingInterval)
        (validate : Job → Option String) (path : String) (periodicity : String)
        (opts : Option ShellScriptOptions) (e : String),
        parse periodicity = .error e →
        ShellScriptToJob parse validate path periodicity opts =
          (none, some e)) := by
  refine ⟨?_, ?_, ?_⟩
  · intro parse validate ds periodicity opts h
    simp [DatasetToJob, h]
  · intro parse validate ds periodicity opts e h hp
    simp [DatasetToJob, h, hp]
  · intro parse validate path periodicity opts e hp
    simp [ShellScriptToJob, hp]

/-- C4 witness: a parser recognising only "R/P1W" rejects an absent and a
malformed expression for datasets, and a malformed one for shell
scripts. -/
theorem invalid_periodicity_rejected_witness :
    DatasetToJob
      (fun s => if s = "R/P1W" then .ok ⟨s⟩ else .error ("invalid: " ++ s))
      (fun _ => none)
      { peername := "b5", name := "ds", meta := none, commit := ⟨"ts"⟩ }
      "" none = (none, some errNoPeriodicity)
    ∧ DatasetToJob
      (fun s => if s = "R/P1W" then .ok ⟨s⟩ else .error ("invalid: " ++ s))
      (fun _ => none)
      { peername := "b5", name := "ds", meta := none, commit := ⟨"ts"⟩ }
      "bogus" none = (none, some "invalid: bogus")
    ∧ ShellScriptToJob
      (fun s => if s = "R/P1W" then .ok ⟨s⟩ else .error ("invalid: " ++ s))
      (fun _ => none) "/x.sh" "bad" none = (none, some "invalid: bad") :=
  ⟨invalid_periodicity_rejected.1 _ _
      { peername := "b5", name := "ds", meta := none, commit := ⟨"ts"⟩ }
      "" none rfl,
   invalid_periodicity_rejected.2.1 _ _
      { peername := "b5", name := "ds", meta := none, commit := ⟨"ts"⟩ }
      "bogus" none "invalid: bogus" (by decide) rfl,
   invalid_periodicity_rejected.2.2 _ _ "/x.sh" "bad" none "invalid: bad"
      rfl⟩

/-- C10: with an empty periodicity argument, DatasetToJob falls back to the
dataset's meta accrualPeriodicity; the job it constructs is named
"peername/name", carries the parsed fallback interval, has Dataset type and
its PrevRunStart is the dataset's commit timestamp. -/
theorem dataset_to_job_fallback (parse : String → Except String RepeatingInterval)
    (validate : Job → Option String) (ds : Dataset)
    (opts : Option DatasetOptions) (m : Meta) (p : RepeatingInterval)
    (hm : ds.meta = some m) (hne : m.accrualPeriodicity ≠ "")
    (hp : parse m.accrualPeriodicity = .ok p) :
    ∃ job : Job, (DatasetToJob parse validate ds "" opts).1 = some job
      ∧ job.name = ds.peername ++ "/" ++ ds.name
      ∧ job.periodicity = p
      ∧ job.type = JTDataset
      ∧ job.prevRunStart = ds.commit.timestamp := by
  have hres : resolvePeriodicity ds "" = m.accrualPeriodicity := by
    simp [resolvePeriodicity, hm, hne]
  refine ⟨{ name := ds.peername ++ "/" ++ ds.name, periodicity := p,
            type := JTDataset, prevRunStart := ds.commit.timestamp,
            options := match opts with
              | some o => .dataset o
              | none => .noOptions }, ?_, rfl, rfl, rfl, rfl⟩
  simp [DatasetToJob, hres, hne, hp]

/-- C10 witness: a concrete dataset whose meta holds the recurrence,
evaluated through the theorem. -/
theorem dataset_to_job_fallback_witness :
    ∃ job : Job,
      (DatasetToJob (fun s => if s = "R/P1W" then .ok ⟨s⟩ else .error "bad")
        (fun _ => none)
        { peername := "b5", name := "ds", meta := some ⟨"R/P1W"⟩,
          commit := ⟨"2019-01-01"⟩ } "" none).1 = some job
      ∧ job.name = "b5" ++ "/" ++ "ds"
      ∧ job.periodicity = ⟨"R/P1W"⟩
      ∧ job.type = JTDataset
      ∧ job.prevRunStart = "2019-01-01" :=
  dataset_to_job_fallback
    (fun s => if s = "R/P1W" then .ok ⟨s⟩ else .error "bad") (fun _ => none)
    { peername := "b5", name := "ds", meta := some ⟨"R/P1W"⟩,
      commit := ⟨"2019-01-01"⟩ } none ⟨"R/P1W"⟩ ⟨"R/P1W"⟩ rfl (by decide)
    rfl

/-- C5: when the liveness probe of the configured address answers
successfully, Start fails with the already-running error and its action
trace is empty: no store is created, no daemon installed, no scheduler loop
entered. -/
theorem start_already_running (pingOk daemonize : Bool) (cfgType : String)
    (h : pingOk = true) :
    Start pingOk daemonize cfgType = (.error "service already running", []) := by
  simp [Start, h]

/-- C5 witness: a second start against a live address, evaluated through
the theorem. -/
theorem start_already_running_witness :
    Start true false "fs" = (.error "service already running", []) :=
  start_already_running true false "fs" rfl

end QriUpdate

namespace QriFbs

/-- C8 (amended): the cron flatbuffer schema matches the spec
field-for-field — root is an ordered list of Job records; the Job record
carries exactly the listed fields in order; Dataset options carry the
listed fields with exactly five booleans; ShellScript options are empty;
the type enumeration is unknown=0, dataset=1, shell=2; both qri flatbuffer
files declare the same 4-byte identifier "QFBF", which sits at bytes 4-7 of
the file rather than at its start. -/
theorem fbs_schema_matches_spec :
    jobTableFields = specJobRecordFields
    ∧ datasetOptionsTableFields = specDatasetOptionsFields
    ∧ (datasetOptionsTableFields.filter
        (fun f => f.2 == FbsTy.boolean)).length = 5
    ∧ shellScriptOptionsTableFields = []
    ∧ jobTypeEnumValues = specJobTypeEnumValues
    ∧ jobsRootTableFields = [("list", FbsTy.jobList)]
    ∧ cronFileIdentifier = "QFBF"
    ∧ repoFileIdentifier = cronFileIdentifier
    ∧ fileIdentifierByteOffset = 4 := by
  refine ⟨rfl, rfl, by decide, rfl, rfl, rfl, rfl, rfl, rfl⟩

/-- C8 counterexample: the 4-byte magic identifier does not sit at the
start of the file as the claim states; the identifier occupies bytes 4-7,
after the root offset. -/
theorem fbs_magic_not_at_file_start :
    ¬ fileIdentifierByteOffset = specClaimedMagicByteOffset := by
  decide

end QriFbs
